import Mathlib

/-!
Shallow embedding of the `webru` crate (a thin wrapper over browser DOM APIs)
and proofs about its two pieces of design content: the collection-draining
accessors in `src/selectors.rs` and the cancelable timer handles in
`src/timer.rs`, plus the dialog/selector pass-throughs in `src/global.rs`.

The host environment (browser window, document, scheduler) is external to the
crate; it is modelled abstractly: host responses are parameters, and host
scheduler state is threaded explicitly.  Rust `panic!` (from `.unwrap()` on a
`None` or an `Err`) is modelled as `Except.error`: the computation aborts
carrying the host failure.
-/

deriving instance DecidableEq for Except

namespace Webru

/-- Opaque stand-in for a `wasm_bindgen::JsValue` failure payload thrown by a
host call (e.g. an invalid-selector syntax error, or a panic payload). -/
structure JsValue where
  tag : String
deriving DecidableEq, Repr

/-- Rust `Option::unwrap()`: the value on `Some`, a panic (modelled as an
aborting error) on `None`. -/
def optionUnwrap (o : Option α) : Except JsValue α :=
  match o with
  | some a => Except.ok a
  | none => Except.error ⟨"panicked: called unwrap on a None value"⟩

/-! ## Collection materializer (`src/selectors.rs`)

A host collection handle (`HtmlCollection` / `NodeList`) is modelled by its
`item` accessor: a function `Nat → Option α` (`item i = none` means index `i`
is absent).  The `*_inside_vec` functions re-issue the underlying query on
every loop iteration (`while let Some(e) = get_elements_by_classname(classname).item(i)`),
so a host interaction is a *stream* of query responses: `calls k` is what the
host returned to the k-th query call, either a collection handle or a failure
(`document()` panicking, or `querySelectorAll` throwing, is `Except.error`).
Each loop iteration issues exactly one query call and probes exactly one index,
both equal to the iteration counter `i`.

The loop is given fuel; `none` means the fuel ran out with the loop still
running, `some r` means the function returned with outcome `r`. -/

/-- The `while let` loop shared verbatim by `get_elements_by_classname_inside_vec`
(src/selectors.rs lines 122-132) and `query_selector_all_inside_vec`
(lines 225-235): at iteration `i` re-issue the query (response `calls i`),
probe `item i`; on `Some element` push and continue, on `None` return `vec`. -/
def inside_vec_loop (calls : Nat → Except JsValue (Nat → Option α))
    (vec : List α) (i : Nat) : Nat → Option (Except JsValue (List α))
  | 0 => none
  | fuel + 1 =>
    match calls i with
    | Except.error e => some (Except.error e)
    | Except.ok coll =>
      match coll i with
      | some element => inside_vec_loop calls (vec ++ [element]) (i + 1) fuel
      | none => some (Except.ok vec)

/-- `get_elements_by_classname_inside_vec` (src/selectors.rs 122-132): starts at
`i = 0` with an empty vec.  `calls` is the stream of responses to the repeated
`get_elements_by_classname(classname)` host calls, one per iteration. -/
def get_elements_by_classname_inside_vec
    (calls : Nat → Except JsValue (Nat → Option α)) (fuel : Nat) :
    Option (Except JsValue (List α)) :=
  inside_vec_loop calls [] 0 fuel

/-- `query_selector_all_inside_vec` (src/selectors.rs 225-235): identical loop
over the stream of responses to the repeated `query_selector_all(selector)`
host calls. -/
def query_selector_all_inside_vec
    (calls : Nat → Except JsValue (Nat → Option α)) (fuel : Nat) :
    Option (Except JsValue (List α)) :=
  inside_vec_loop calls [] 0 fuel

/-- Modelled from the spec: the reference materializer that "performs the query
exactly once and then drains the resulting handle by sequential index probes"
(spec section 4.1, claim C2's reference implementation).  Drain loop: probe the
one handle at `i`, push on present, stop on absent. -/
def drain_once_loop (coll : Nat → Option α) (vec : List α) (i : Nat) :
    Nat → Option (List α)
  | 0 => none
  | fuel + 1 =>
    match coll i with
    | some element => drain_once_loop coll (vec ++ [element]) (i + 1) fuel
    | none => some vec

/-- Modelled from the spec: `materialize` per spec section 4.1 — one single
query call (the stream's first response), then a pure drain of that one
handle. -/
def materialize_once (calls : Nat → Except JsValue (Nat → Option α))
    (fuel : Nat) : Option (Except JsValue (List α)) :=
  match calls 0 with
  | Except.error e => some (Except.error e)
  | Except.ok coll => (drain_once_loop coll [] 0 fuel).map Except.ok

/-! ## Cancelable timer handles (`src/timer.rs`)

The host scheduler (browser `window` timer capability) is modelled as explicit
state: the active one-shot and repeating registrations (identifier, callback,
delay), plus the trace of identifiers passed to the two cancellation calls.
Identifiers are host-issued `i32` values, modelled as `Int`.  The host's
decision on a registration request (`setTimeout` / `setInterval`) is a
parameter `HostReply`: accept with a fresh identifier, or reject with a
failure (which also covers "called outside a valid host context").
`Closure::wrap` / `callback.forget()` manage wasm memory only and have no
observable effect in this model. -/

/-- The host scheduler's answer to one registration request. -/
inductive HostReply where
  | accept : Int → HostReply
  | reject : JsValue → HostReply
deriving DecidableEq, Repr

/-- State of the host scheduler: active registrations of both kinds and the
trace of cancellation requests received, in order.  `Cb` is the opaque type of
caller-supplied callbacks. -/
structure SchedState (Cb : Type) where
  timeouts : List (Int × Cb × Int)
  intervals : List (Int × Cb × Int)
  timeoutCancels : List Int
  intervalCancels : List Int
deriving DecidableEq, Repr

/-- Host `setTimeout`: on accept, issue the identifier and add a one-shot
registration; on reject, fail with the host error. -/
def setTimeoutHost (reply : HostReply) (cb : Cb) (delay : Int)
    (s : SchedState Cb) : Except JsValue (Int × SchedState Cb) :=
  match reply with
  | HostReply.reject e => Except.error e
  | HostReply.accept id =>
      Except.ok (id, { s with timeouts := s.timeouts ++ [(id, cb, delay)] })

/-- Host `clearTimeout(id)`: drop any one-shot registration with that
identifier (a no-op when none exists — already fired or already cleared) and
record the request.  Never fails. -/
def clearTimeoutHost (id : Int) (s : SchedState Cb) : SchedState Cb :=
  { s with timeouts := s.timeouts.filter (fun p => p.1 != id),
           timeoutCancels := s.timeoutCancels ++ [id] }

/-- Host `setInterval`: like `setTimeoutHost` but on the repeating registry. -/
def setIntervalHost (reply : HostReply) (cb : Cb) (delay : Int)
    (s : SchedState Cb) : Except JsValue (Int × SchedState Cb) :=
  match reply with
  | HostReply.reject e => Except.error e
  | HostReply.accept id =>
      Except.ok (id, { s with intervals := s.intervals ++ [(id, cb, delay)] })

/-- Host `clearInterval(id)`: like `clearTimeoutHost` on the repeating
registry. -/
def clearIntervalHost (id : Int) (s : SchedState Cb) : SchedState Cb :=
  { s with intervals := s.intervals.filter (fun p => p.1 != id),
           intervalCancels := s.intervalCancels ++ [id] }

/-- `set_timeout` (src/timer.rs 59-75): wraps the handler and forwards to the
host one-shot scheduler, returning the host's `Result<i32, JsValue>`. -/
def set_timeout (reply : HostReply) (handler : Cb) (timeout : Int)
    (s : SchedState Cb) : Except JsValue (Int × SchedState Cb) :=
  setTimeoutHost reply handler timeout s

/-- `clear_timeout` (src/timer.rs 111-115): forwards to host `clearTimeout`. -/
def clear_timeout (timeout_id : Int) (s : SchedState Cb) : SchedState Cb :=
  clearTimeoutHost timeout_id s

/-- `set_interval` (src/timer.rs 158-174): forwards to the host repeating
scheduler. -/
def set_interval (reply : HostReply) (handler : Cb) (timeout : Int)
    (s : SchedState Cb) : Except JsValue (Int × SchedState Cb) :=
  setIntervalHost reply handler timeout s

/-- `clear_interval` (src/timer.rs 218-222): forwards to host `clearInterval`. -/
def clear_interval (timeout : Int) (s : SchedState Cb) : SchedState Cb :=
  clearIntervalHost timeout s

/-- `Timeout` (src/timer.rs 295-298): a one-shot timer handle holding the
host-issued identifier. -/
structure Timeout where
  timeout_id : Int
deriving DecidableEq, Repr

/-- `Timeout::start` (src/timer.rs 307-314): `set_timeout(handler, timeout).unwrap()`
— the `.unwrap()` aborts with the host failure on `Err` (modelled as
`Except.error`); on `Ok` the identifier is stored in the handle. -/
def Timeout.start (reply : HostReply) (handler : Cb) (timeout : Int)
    (s : SchedState Cb) : Except JsValue (Timeout × SchedState Cb) :=
  match set_timeout reply handler timeout s with
  | Except.error e => Except.error e
  | Except.ok (timeout_id, s') => Except.ok ({ timeout_id := timeout_id }, s')

/-- `Timeout::stop` (src/timer.rs 320-322): `clear_timeout(self.timeout_id)`.
Takes the handle by shared reference (the handle is not mutated), returns
`()`. -/
def Timeout.stop (self : Timeout) (s : SchedState Cb) : Unit × SchedState Cb :=
  ((), clear_timeout self.timeout_id s)

/-- `Interval` (src/timer.rs 373-375): a repeating timer handle holding the
host-issued identifier. -/
structure Interval where
  interval_id : Int
deriving DecidableEq, Repr

/-- `Interval::start` (src/timer.rs 384-391): `set_interval(handler, timeout).unwrap()`. -/
def Interval.start (reply : HostReply) (handler : Cb) (timeout : Int)
    (s : SchedState Cb) : Except JsValue (Interval × SchedState Cb) :=
  match set_interval reply handler timeout s with
  | Except.error e => Except.error e
  | Except.ok (interval_id, s') => Except.ok ({ interval_id := interval_id }, s')

/-- `Interval::stop` (src/timer.rs 397-399): `clear_interval(self.interval_id)`. -/
def Interval.stop (self : Interval) (s : SchedState Cb) : Unit × SchedState Cb :=
  ((), clear_interval self.interval_id s)

/-- Observable of the host scheduler: a pending one-shot registration with this
identifier exists, i.e. its callback would still fire. -/
def firesTimeout (s : SchedState Cb) (id : Int) : Bool :=
  s.timeouts.any (fun p => p.1 == id)

/-- Observable of the host scheduler: a pending repeating registration with
this identifier exists. -/
def firesInterval (s : SchedState Cb) (id : Int) : Bool :=
  s.intervals.any (fun p => p.1 == id)

/-- Iterate `Timeout.stop` n times from a state, threading only the scheduler
state (the handle is immutable). -/
def stopNTimeout (h : Timeout) (s : SchedState Cb) : Nat → SchedState Cb
  | 0 => s
  | n + 1 => (Timeout.stop h (stopNTimeout h s n)).2

/-- Iterate `Interval.stop` n times from a state. -/
def stopNInterval (h : Interval) (s : SchedState Cb) : Nat → SchedState Cb
  | 0 => s
  | n + 1 => (Interval.stop h (stopNInterval h s n)).2

/-! ## Pass-through accessors and dialogs (`src/global.rs`, single-call
selectors of `src/selectors.rs`)

For the functions that issue a single host call per invocation, the host is
modelled as a static `WindowModel`: `none` for the window or the document
means the capability is unavailable (the `.unwrap()` then panics).  Host
methods that can throw return `Except JsValue`. -/

/-- Model of the parts of `web_sys::Document` these functions call.
`get_element_by_id` never throws and returns the match, if any;
`query_selector` throws (`Except.error`) on an invalid selector and otherwise
returns the first match, if any. -/
structure DocumentModel (Elem : Type) where
  get_element_by_id : String → Option Elem
  query_selector : String → Except JsValue (Option Elem)

/-- Model of the parts of `web_sys::Window` these functions call.
`prompt_with_message` throws on host failure and otherwise returns the entered
text, `none` meaning the user dismissed the dialog. -/
structure WindowModel (Elem : Type) where
  document : Option (DocumentModel Elem)
  prompt_with_message : String → Except JsValue (Option String)

/-- `document` (src/global.rs 41-44): `window().unwrap().document().unwrap()` —
each `.unwrap()` panics (aborts with an error) when the capability is
absent. -/
def document (w : Option (WindowModel Elem)) :
    Except JsValue (DocumentModel Elem) :=
  match optionUnwrap w with
  | Except.error e => Except.error e
  | Except.ok window => optionUnwrap window.document

/-- `get_element_by_id` (src/selectors.rs 51-53):
`document().get_element_by_id(id)` — forwards the host's `Option` result
unchanged. -/
def get_element_by_id (w : Option (WindowModel Elem)) (id : String) :
    Except JsValue (Option Elem) :=
  match document w with
  | Except.error e => Except.error e
  | Except.ok doc => Except.ok (doc.get_element_by_id id)

/-- `query_selector` (src/selectors.rs 190-192):
`document().query_selector(selector).unwrap()` — the `.unwrap()` re-raises the
host's selector-syntax failure, and otherwise the host's `Option` result is
forwarded unchanged. -/
def query_selector (w : Option (WindowModel Elem)) (selector : String) :
    Except JsValue (Option Elem) :=
  match document w with
  | Except.error e => Except.error e
  | Except.ok doc => doc.query_selector selector

/-- `prompt` (src/global.rs 244-246):
`window().unwrap().prompt_with_message(msg).unwrap()` — `none` means the user
clicked Cancel, `some text` (possibly empty) means the user clicked OK. -/
def prompt (w : Option (WindowModel Elem)) (msg : String) :
    Except JsValue (Option String) :=
  match optionUnwrap w with
  | Except.error e => Except.error e
  | Except.ok window => window.prompt_with_message msg

/-! ## Concrete fixtures for witnesses -/

/-- Concrete collection for witnesses: items present exactly at indices 0 and
1, absent from index 2 on. -/
def c1Coll : Nat → Option Nat := fun j => if j < 2 then some j else none

/-- Host interaction whose successive query calls answer with different
collections: the call at iteration 0 sees an item at index 0 only, the call at
iteration 1 sees an item at index 1 only, and every later call sees an empty
collection.  Used to separate the re-querying code from the single-query
reference. -/
def divergingCalls : Nat → Except JsValue (Nat → Option Nat) :=
  fun k => Except.ok (fun j =>
    if k = 0 ∧ j = 0 then some 10
    else if k = 1 ∧ j = 1 then some 20
    else none)

/-- Scheduler state holding one one-shot registration with identifier 2. -/
def c7sT : SchedState Unit := SchedState.mk [(2, (), 5)] [] [] []

/-- Scheduler state holding one repeating registration with identifier 4. -/
def c7sI : SchedState Unit := SchedState.mk [] [(4, (), 5)] [] []

/-- The empty scheduler state. -/
def c8s0 : SchedState Unit := SchedState.mk [] [] [] []

/-- Scheduler state right after registering one-shot timer 7. -/
def c8sT : SchedState Unit := SchedState.mk [(7, (), 4)] [] [] []

/-- Scheduler state right after registering repeating timer 9. -/
def c8sI : SchedState Unit := SchedState.mk [] [(9, (), 5)] [] []

/-- Concrete document fixture whose queries match nothing. -/
def c9Doc : DocumentModel Nat :=
  { get_element_by_id := fun _ => none,
    query_selector := fun _ => Except.ok none }

/-- Window whose document has no matches and whose prompt is dismissed. -/
def c9Win : WindowModel Nat :=
  { document := some c9Doc,
    prompt_with_message := fun _ => Except.ok none }

/-- Window whose prompt is confirmed with the empty entry. -/
def c10Win : WindowModel Nat :=
  { document := none,
    prompt_with_message := fun _ => Except.ok (some "") }

/-! ## Helper lemmas -/

/-- Filtering by the same predicate twice equals filtering once. -/
theorem filter_self_idem (q : β → Bool) (l : List β) :
    (l.filter q).filter q = l.filter q := by
  induction l with
  | nil => rfl
  | cons a t ih =>
    by_cases h : q a = true
    · simp [List.filter_cons, h, ih]
    · simp [List.filter_cons, h, ih]

/-- After removing every entry keyed `a`, no entry keyed `a` remains. -/
theorem any_key_filter_ne_self (l : List (Int × β)) (a : Int) :
    (l.filter (fun p => p.1 != a)).any (fun p => p.1 == a) = false := by
  induction l with
  | nil => rfl
  | cons p t ih =>
    by_cases h : p.1 = a
    · simp [List.filter_cons, h, ih]
    · simp [List.filter_cons, h, ih]

/-- Removing entries keyed `a` does not change whether an entry keyed `b ≠ a`
exists. -/
theorem any_key_filter_ne_other (l : List (Int × β)) (a b : Int) (hab : a ≠ b) :
    (l.filter (fun p => p.1 != a)).any (fun p => p.1 == b)
      = l.any (fun p => p.1 == b) := by
  induction l with
  | nil => rfl
  | cons p t ih =>
    by_cases h : p.1 = a
    · have hb : (p.1 == b) = false := by simp [h]; omega
      rw [List.any_cons, hb, Bool.false_or, ← ih]
      have hfa : (p.1 != a) = false := by simp [h]
      rw [List.filter_cons, hfa]
      simp
    · simp [List.filter_cons, h, List.any_cons, ih]

/-- If every query call of the stream answers with the same collection `coll`
whose `item` accessor is present exactly on `0..N-1`, then from iteration `i`
the loop returns `vec` extended by the remaining `N - i` items, in host
order. -/
theorem inside_vec_loop_contiguous (calls : Nat → Except JsValue (Nat → Option α))
    (coll : Nat → Option α) (N : Nat)
    (hconst : ∀ k, calls k = Except.ok coll)
    (hcont : ∀ j, (coll j).isSome ↔ j < N) :
    ∀ fuel i vec, i ≤ N → N - i < fuel →
      ∃ t, inside_vec_loop calls vec i fuel = some (Except.ok (vec ++ t)) ∧
        t.length = N - i ∧ ∀ j, j < t.length → t.get? j = coll (i + j) := by
  intro fuel
  induction fuel with
  | zero => intro i vec hi hf; omega
  | succ f ih =>
    intro i vec hi hf
    by_cases hiN : i = N
    · have hnone : coll i = none := by
        have := (hcont i).mp
        subst hiN
        cases h : coll i with
        | none => rfl
        | some a => exact absurd (this (by simp [h])) (by omega)
      refine ⟨[], ?_, by simp [hiN], by intro j hj; simp at hj⟩
      simp only [inside_vec_loop, hconst i, hnone, List.append_nil]
    · have hlt : i < N := by omega
      obtain ⟨a, ha⟩ : ∃ a, coll i = some a := by
        have := (hcont i).mpr hlt
        cases h : coll i with
        | none => rw [h] at this; simp at this
        | some a => exact ⟨a, rfl⟩
      obtain ⟨t, ht, hlen, hget⟩ := ih (i + 1) (vec ++ [a]) (by omega) (by omega)
      refine ⟨a :: t, ?_, by simp [hlen]; omega, ?_⟩
      · simp only [inside_vec_loop, hconst i, ha, ht, List.append_assoc,
          List.singleton_append]
      · intro j hj
        cases j with
        | zero => simpa using ha.symm
        | succ j' =>
          have := hget j' (by simp at hj ⊢; omega)
          simpa [Nat.add_comm, Nat.add_assoc, Nat.add_left_comm] using this

/-- If every query call answers with the same collection and that collection is
absent at some index `m ≥ i`, the loop returns within `m - i + 1` further
iterations. -/
theorem inside_vec_loop_terminates (calls : Nat → Except JsValue (Nat → Option α))
    (coll : Nat → Option α) (m : Nat)
    (hconst : ∀ k, calls k = Except.ok coll) (hm : coll m = none) :
    ∀ fuel i vec, i ≤ m → m - i < fuel →
      ∃ l, inside_vec_loop calls vec i fuel = some (Except.ok l) := by
  intro fuel
  induction fuel with
  | zero => intro i vec hi hf; omega
  | succ f ih =>
    intro i vec hi hf
    cases ha : coll i with
    | none =>
      exact ⟨vec, by simp only [inside_vec_loop, hconst i, ha]⟩
    | some a =>
      have hne : i ≠ m := fun h => by rw [h, hm] at ha; exact Option.noConfusion ha
      obtain ⟨l, hl⟩ := ih (i + 1) (vec ++ [a]) (by omega) (by omega)
      exact ⟨l, by simp only [inside_vec_loop, hconst i, ha, hl]⟩

/-- If every query call answers with the same collection, re-querying per
iteration coincides with draining the single handle. -/
theorem inside_vec_loop_eq_drain_once (calls : Nat → Except JsValue (Nat → Option α))
    (coll : Nat → Option α) (hconst : ∀ k, calls k = Except.ok coll) :
    ∀ fuel i vec, inside_vec_loop calls vec i fuel
      = (drain_once_loop coll vec i fuel).map Except.ok := by
  intro fuel
  induction fuel with
  | zero => intro i vec; rfl
  | succ f ih =>
    intro i vec
    cases ha : coll i with
    | none => simp [inside_vec_loop, drain_once_loop, hconst i, ha]
    | some a => simp only [inside_vec_loop, drain_once_loop, hconst i, ha, ih]

end Webru

namespace Webru

/-- C1: for every host collection whose index accessor is present for exactly
the contiguous indices 0..N-1 and absent at index N, both
`get_elements_by_classname_inside_vec` and `query_selector_all_inside_vec`
return (with enough fuel, i.e. the loop terminates normally) a sequence of
exactly N items in host index order — position i of the result is the host
item at index i — and N = 0 yields the empty sequence, not a failure. -/
theorem C1_materialize_contiguous (calls : Nat → Except JsValue (Nat → Option α))
    (coll : Nat → Option α) (N fuel : Nat)
    (hconst : ∀ k, calls k = Except.ok coll)
    (hcont : ∀ j, (coll j).isSome ↔ j < N)
    (hfuel : N < fuel) :
    (∃ l, get_elements_by_classname_inside_vec calls fuel = some (Except.ok l) ∧
      l.length = N ∧ ∀ i, i < N → l.get? i = coll i) ∧
    (∃ l, query_selector_all_inside_vec calls fuel = some (Except.ok l) ∧
      l.length = N ∧ ∀ i, i < N → l.get? i = coll i) := by
  obtain ⟨t, ht, hlen, hget⟩ :=
    inside_vec_loop_contiguous calls coll N hconst hcont fuel 0 []
      (by omega) (by omega)
  have hres : inside_vec_loop calls [] 0 fuel = some (Except.ok t) := by
    simpa using ht
  have hgood : t.length = N ∧ ∀ i, i < N → t.get? i = coll i := by
    refine ⟨by omega, fun i hi => ?_⟩
    simpa using hget i (by omega)
  exact ⟨⟨t, hres, hgood⟩, ⟨t, hres, hgood⟩⟩

/-- Witness for C1 at the concrete collection `c1Coll` (N = 2, fuel 3). -/
theorem C1_materialize_contiguous_witness :
    2 < 3 ∧
    ((∃ l, get_elements_by_classname_inside_vec
          (fun _ => Except.ok c1Coll) 3 = some (Except.ok l) ∧
        l.length = 2 ∧ ∀ i, i < 2 → l.get? i = c1Coll i) ∧
     (∃ l, query_selector_all_inside_vec
          (fun _ => Except.ok c1Coll) 3 = some (Except.ok l) ∧
        l.length = 2 ∧ ∀ i, i < 2 → l.get? i = c1Coll i)) :=
  ⟨by decide,
   C1_materialize_contiguous (fun _ => Except.ok c1Coll) c1Coll 2 3
     (fun _ => rfl)
     (fun j => by unfold c1Coll; by_cases h : j < 2 <;> simp [h])
     (by omega)⟩

/-- C2 counterexample: the materializing functions do NOT read from one handle
obtained by a single query call — they re-issue the query on every loop
iteration — and on a host whose successive query calls answer differently
their result differs from the single-query reference `materialize_once`
(the code yields [10, 20], the reference yields [10]). -/
theorem C2_counterexample :
    get_elements_by_classname_inside_vec divergingCalls 5
        ≠ materialize_once divergingCalls 5 ∧
    query_selector_all_inside_vec divergingCalls 5
        ≠ materialize_once divergingCalls 5 := by
  decide

/-- C2 amended: each materializing function issues one query call per loop
iteration rather than a single query call; whenever every one of those calls
answers with the same collection handle, its result equals that of the
reference implementation that performs the query exactly once and then drains
the resulting handle by sequential index probes. -/
theorem C2_amended_single_query_equiv
    (calls : Nat → Except JsValue (Nat → Option α)) (coll : Nat → Option α)
    (hconst : ∀ k, calls k = Except.ok coll) (fuel : Nat) :
    get_elements_by_classname_inside_vec calls fuel = materialize_once calls fuel ∧
    query_selector_all_inside_vec calls fuel = materialize_once calls fuel := by
  have h := inside_vec_loop_eq_drain_once calls coll hconst fuel 0 []
  have hm : materialize_once calls fuel
      = (drain_once_loop coll [] 0 fuel).map Except.ok := by
    simp [materialize_once, hconst 0]
  constructor
  · show inside_vec_loop calls [] 0 fuel = materialize_once calls fuel
    rw [h, hm]
  · show inside_vec_loop calls [] 0 fuel = materialize_once calls fuel
    rw [h, hm]

/-- Witness for the amended C2 at the constant host `fun _ => Except.ok c1Coll`. -/
theorem C2_amended_single_query_equiv_witness :
    get_elements_by_classname_inside_vec (fun _ => Except.ok c1Coll) 3
        = materialize_once (fun _ => Except.ok c1Coll) 3 ∧
    query_selector_all_inside_vec (fun _ => Except.ok c1Coll) 3
        = materialize_once (fun _ => Except.ok c1Coll) 3 :=
  C2_amended_single_query_equiv (fun _ => Except.ok c1Coll) c1Coll
    (fun _ => rfl) 3

/-- C5: for every host collection whose index accessor is absent at some index
m, both materializing functions terminate (with fuel exceeding m the loop
returns rather than exhausting its fuel) and return a finite sequence. -/
theorem C5_materialize_terminates (calls : Nat → Except JsValue (Nat → Option α))
    (coll : Nat → Option α) (m fuel : Nat)
    (hconst : ∀ k, calls k = Except.ok coll)
    (hm : coll m = none) (hfuel : m < fuel) :
    (∃ l, get_elements_by_classname_inside_vec calls fuel = some (Except.ok l)) ∧
    (∃ l, query_selector_all_inside_vec calls fuel = some (Except.ok l)) := by
  obtain ⟨l, hl⟩ :=
    inside_vec_loop_terminates calls coll m hconst hm fuel 0 [] (by omega) (by omega)
  exact ⟨⟨l, hl⟩, ⟨l, hl⟩⟩

/-- Witness for C5 at the concrete collection `c1Coll` (absent at index 2,
fuel 3). -/
theorem C5_materialize_terminates_witness :
    c1Coll 2 = none ∧ 2 < 3 ∧
    ((∃ l, get_elements_by_classname_inside_vec
        (fun _ => Except.ok c1Coll) 3 = some (Except.ok l)) ∧
     (∃ l, query_selector_all_inside_vec
        (fun _ => Except.ok c1Coll) 3 = some (Except.ok l))) :=
  ⟨by decide, by decide,
   C5_materialize_terminates (fun _ => Except.ok c1Coll) c1Coll 2 3
     (fun _ => rfl) (by decide) (by omega)⟩

/-- C3: for any Timeout or Interval handle, stopping twice has the same
observable effect as stopping once — the second call also returns `()` (it
cannot fail), the scheduler registries after the second call equal those after
the first, the callback cannot fire after either call (its registration is
gone), and both cancellation requests sent to the host carry the same stored
identifier. -/
theorem C3_stop_idempotent {Cb : Type} (h : Timeout) (g : Interval)
    (s u : SchedState Cb) :
    ((Timeout.stop h ((Timeout.stop h s).2)).1 = () ∧
     ((Timeout.stop h ((Timeout.stop h s).2)).2).timeouts
        = ((Timeout.stop h s).2).timeouts ∧
     ((Timeout.stop h ((Timeout.stop h s).2)).2).intervals
        = ((Timeout.stop h s).2).intervals ∧
     firesTimeout ((Timeout.stop h s).2) h.timeout_id = false ∧
     firesTimeout ((Timeout.stop h ((Timeout.stop h s).2)).2) h.timeout_id = false ∧
     ((Timeout.stop h ((Timeout.stop h s).2)).2).timeoutCancels
        = s.timeoutCancels ++ [h.timeout_id, h.timeout_id]) ∧
    ((Interval.stop g ((Interval.stop g u).2)).1 = () ∧
     ((Interval.stop g ((Interval.stop g u).2)).2).intervals
        = ((Interval.stop g u).2).intervals ∧
     ((Interval.stop g ((Interval.stop g u).2)).2).timeouts
        = ((Interval.stop g u).2).timeouts ∧
     firesInterval ((Interval.stop g u).2) g.interval_id = false ∧
     firesInterval ((Interval.stop g ((Interval.stop g u).2)).2) g.interval_id = false ∧
     ((Interval.stop g ((Interval.stop g u).2)).2).intervalCancels
        = u.intervalCancels ++ [g.interval_id, g.interval_id]) := by
  refine ⟨⟨rfl, ?_, rfl, ?_, ?_, ?_⟩, ⟨rfl, ?_, rfl, ?_, ?_, ?_⟩⟩
  · exact filter_self_idem _ s.timeouts
  · exact any_key_filter_ne_self s.timeouts h.timeout_id
  · show ((s.timeouts.filter fun p => p.1 != h.timeout_id).filter
        fun p => p.1 != h.timeout_id).any (fun p => p.1 == h.timeout_id) = false
    rw [filter_self_idem]
    exact any_key_filter_ne_self s.timeouts h.timeout_id
  · exact List.append_assoc _ _ _
  · exact filter_self_idem _ u.intervals
  · exact any_key_filter_ne_self u.intervals g.interval_id
  · show ((u.intervals.filter fun p => p.1 != g.interval_id).filter
        fun p => p.1 != g.interval_id).any (fun p => p.1 == g.interval_id) = false
    rw [filter_self_idem]
    exact any_key_filter_ne_self u.intervals g.interval_id
  · exact List.append_assoc _ _ _

/-- C4: `Timeout.start` registers with the host one-shot scheduler (the
repeating registry is untouched) and returns a handle storing exactly the
host-issued identifier, and `Timeout.stop` issues the one-shot cancellation
with exactly that stored identifier (the repeating cancellation trace and
registry are untouched); `Interval.start`/`Interval.stop` do the same against
the repeating scheduler. -/
theorem C4_start_registers_stop_paired {Cb : Type} (id idI : Int) (cb cbI : Cb)
    (d dI : Int) (s sI : SchedState Cb) :
    (∃ h s', Timeout.start (HostReply.accept id) cb d s = Except.ok (h, s') ∧
      h.timeout_id = id ∧
      s'.timeouts = s.timeouts ++ [(id, cb, d)] ∧
      s'.intervals = s.intervals ∧
      (Timeout.stop h s').2.timeoutCancels = s'.timeoutCancels ++ [id] ∧
      (Timeout.stop h s').2.intervalCancels = s'.intervalCancels ∧
      (Timeout.stop h s').2.intervals = s'.intervals) ∧
    (∃ g s', Interval.start (HostReply.accept idI) cbI dI sI = Except.ok (g, s') ∧
      g.interval_id = idI ∧
      s'.intervals = sI.intervals ++ [(idI, cbI, dI)] ∧
      s'.timeouts = sI.timeouts ∧
      (Interval.stop g s').2.intervalCancels = s'.intervalCancels ++ [idI] ∧
      (Interval.stop g s').2.timeoutCancels = s'.timeoutCancels ∧
      (Interval.stop g s').2.timeouts = s'.timeouts) := by
  refine ⟨⟨{ timeout_id := id },
            { s with timeouts := s.timeouts ++ [(id, cb, d)] },
            rfl, rfl, rfl, rfl, rfl, rfl, rfl⟩,
          ⟨{ interval_id := idI },
            { sI with intervals := sI.intervals ++ [(idI, cbI, dI)] },
            rfl, rfl, rfl, rfl, rfl, rfl, rfl⟩⟩

/-- C6: `Timeout.start` and `Interval.start` fail — propagating the host's own
failure value — exactly when the host scheduler rejects the registration; when
the host accepts, they succeed and return a handle. -/
theorem C6_start_fails_iff_reject {Cb : Type} (cb cbI : Cb) (d dI : Int)
    (s sI : SchedState Cb) (e eI : JsValue) (id idI : Int) :
    (Timeout.start (HostReply.reject e) cb d s = Except.error e) ∧
    (∃ h s', Timeout.start (HostReply.accept id) cb d s = Except.ok (h, s')) ∧
    (Interval.start (HostReply.reject eI) cbI dI sI = Except.error eI) ∧
    (∃ g s', Interval.start (HostReply.accept idI) cbI dI sI = Except.ok (g, s')) :=
  ⟨rfl,
   ⟨{ timeout_id := id }, { s with timeouts := s.timeouts ++ [(id, cb, d)] }, rfl⟩,
   rfl,
   ⟨{ interval_id := idI }, { sI with intervals := sI.intervals ++ [(idI, cbI, dI)] }, rfl⟩⟩

/-- C7: for two handles holding distinct host identifiers, stopping one sends
the host exactly one cancellation request carrying its own stored identifier
(and none of the other kind), and the other handle's registration survives:
whether it would still fire is unchanged, and its registry entries are all
kept. -/
theorem C7_stop_isolated {Cb : Type} (h1 h2 : Timeout) (g1 g2 : Interval)
    (s u : SchedState Cb)
    (hne : h1.timeout_id ≠ h2.timeout_id)
    (gne : g1.interval_id ≠ g2.interval_id) :
    (((Timeout.stop h1 s).2).timeoutCancels = s.timeoutCancels ++ [h1.timeout_id] ∧
     ((Timeout.stop h1 s).2).intervalCancels = s.intervalCancels ∧
     firesTimeout ((Timeout.stop h1 s).2) h2.timeout_id
        = firesTimeout s h2.timeout_id ∧
     (∀ p ∈ s.timeouts, p.1 = h2.timeout_id → p ∈ ((Timeout.stop h1 s).2).timeouts)) ∧
    (((Interval.stop g1 u).2).intervalCancels = u.intervalCancels ++ [g1.interval_id] ∧
     ((Interval.stop g1 u).2).timeoutCancels = u.timeoutCancels ∧
     firesInterval ((Interval.stop g1 u).2) g2.interval_id
        = firesInterval u g2.interval_id ∧
     (∀ p ∈ u.intervals, p.1 = g2.interval_id → p ∈ ((Interval.stop g1 u).2).intervals)) := by
  refine ⟨⟨rfl, rfl, any_key_filter_ne_other s.timeouts _ _ hne, ?_⟩,
          ⟨rfl, rfl, any_key_filter_ne_other u.intervals _ _ gne, ?_⟩⟩
  · intro p hp hpk
    have hcond : (p.1 != h1.timeout_id) = true := by
      rw [hpk, bne_iff_ne]
      exact fun hh => hne hh.symm
    exact List.mem_filter.mpr ⟨hp, hcond⟩
  · intro p hp hpk
    have hcond : (p.1 != g1.interval_id) = true := by
      rw [hpk, bne_iff_ne]
      exact fun hh => gne hh.symm
    exact List.mem_filter.mpr ⟨hp, hcond⟩

/-- Witness for C7 with handles 1 ≠ 2 (one-shot) and 3 ≠ 4 (repeating) on
concrete scheduler states holding the other handle's registration. -/
theorem C7_stop_isolated_witness :
    (Timeout.mk 1).timeout_id ≠ (Timeout.mk 2).timeout_id ∧
    (Interval.mk 3).interval_id ≠ (Interval.mk 4).interval_id ∧
    ((((Timeout.stop (Timeout.mk 1) c7sT).2).timeoutCancels
        = c7sT.timeoutCancels ++ [(Timeout.mk 1).timeout_id] ∧
      ((Timeout.stop (Timeout.mk 1) c7sT).2).intervalCancels = c7sT.intervalCancels ∧
      firesTimeout ((Timeout.stop (Timeout.mk 1) c7sT).2) (Timeout.mk 2).timeout_id
        = firesTimeout c7sT (Timeout.mk 2).timeout_id ∧
      (∀ p ∈ c7sT.timeouts, p.1 = (Timeout.mk 2).timeout_id →
        p ∈ ((Timeout.stop (Timeout.mk 1) c7sT).2).timeouts)) ∧
     (((Interval.stop (Interval.mk 3) c7sI).2).intervalCancels
        = c7sI.intervalCancels ++ [(Interval.mk 3).interval_id] ∧
      ((Interval.stop (Interval.mk 3) c7sI).2).timeoutCancels = c7sI.timeoutCancels ∧
      firesInterval ((Interval.stop (Interval.mk 3) c7sI).2) (Interval.mk 4).interval_id
        = firesInterval c7sI (Interval.mk 4).interval_id ∧
      (∀ p ∈ c7sI.intervals, p.1 = (Interval.mk 4).interval_id →
        p ∈ ((Interval.stop (Interval.mk 3) c7sI).2).intervals))) :=
  ⟨by decide, by decide,
   C7_stop_isolated (Timeout.mk 1) (Timeout.mk 2) (Interval.mk 3) (Interval.mk 4)
     c7sT c7sI (by decide) (by decide)⟩

/-- C8: stop returns no value (`()`), and the stored identifier is unchanged by
stopping: the handle returned by start carries exactly the host-issued
identifier and after any number of stop calls every cancellation request still
carries that same identifier. -/
theorem C8_stop_preserves_identifier {Cb : Type} (id idI : Int) (cb cbI : Cb)
    (d dI : Int) (s sI s1 sI1 : SchedState Cb) (h : Timeout) (g : Interval)
    (hstart : Timeout.start (HostReply.accept id) cb d s = Except.ok (h, s1))
    (gstart : Interval.start (HostReply.accept idI) cbI dI sI = Except.ok (g, sI1)) :
    (h.timeout_id = id ∧
     (∀ u : SchedState Cb, (Timeout.stop h u).1 = ()) ∧
     (∀ n, (stopNTimeout h s1 n).timeoutCancels
        = s1.timeoutCancels ++ List.replicate n id)) ∧
    (g.interval_id = idI ∧
     (∀ u : SchedState Cb, (Interval.stop g u).1 = ()) ∧
     (∀ n, (stopNInterval g sI1 n).intervalCancels
        = sI1.intervalCancels ++ List.replicate n idI)) := by
  simp only [Timeout.start, set_timeout, setTimeoutHost, Except.ok.injEq,
    Prod.mk.injEq] at hstart
  simp only [Interval.start, set_interval, setIntervalHost, Except.ok.injEq,
    Prod.mk.injEq] at gstart
  obtain ⟨hh, -⟩ := hstart
  obtain ⟨gg, -⟩ := gstart
  have hid : h.timeout_id = id := by rw [← hh]
  have gid : g.interval_id = idI := by rw [← gg]
  refine ⟨⟨hid, fun u => rfl, ?_⟩, ⟨gid, fun u => rfl, ?_⟩⟩
  · intro n
    induction n with
    | zero => simp [stopNTimeout]
    | succ n ih =>
      simp only [stopNTimeout, Timeout.stop, clear_timeout, clearTimeoutHost]
      rw [ih, hid, List.append_assoc]
      congr 1
      exact (List.replicate_succ' _ _).symm
  · intro n
    induction n with
    | zero => simp [stopNInterval]
    | succ n ih =>
      simp only [stopNInterval, Interval.stop, clear_interval, clearIntervalHost]
      rw [ih, gid, List.append_assoc]
      congr 1
      exact (List.replicate_succ' _ _).symm

/-- Witness for C8: start a one-shot timer (host id 7) and a repeating timer
(host id 9) on the empty scheduler state. -/
theorem C8_stop_preserves_identifier_witness :
    ((Timeout.mk 7).timeout_id = 7 ∧
     (∀ u : SchedState Unit, (Timeout.stop (Timeout.mk 7) u).1 = ()) ∧
     (∀ n, (stopNTimeout (Timeout.mk 7) c8sT n).timeoutCancels
        = c8sT.timeoutCancels ++ List.replicate n 7)) ∧
    ((Interval.mk 9).interval_id = 9 ∧
     (∀ u : SchedState Unit, (Interval.stop (Interval.mk 9) u).1 = ()) ∧
     (∀ n, (stopNInterval (Interval.mk 9) c8sI n).intervalCancels
        = c8sI.intervalCancels ++ List.replicate n 9)) :=
  C8_stop_preserves_identifier 7 9 () () 4 5 c8s0 c8s0 c8sT c8sI
    (Timeout.mk 7) (Interval.mk 9) rfl rfl

/-- When the window and document capabilities are present, `document` returns
the document. -/
theorem document_some (win : WindowModel Elem) (doc : DocumentModel Elem)
    (hdoc : win.document = some doc) : document (some win) = Except.ok doc := by
  show optionUnwrap win.document = Except.ok doc
  rw [hdoc]
  rfl

/-- C9: absent-value outcomes are explicit `none` results, never failures —
with the host context present, `get_element_by_id` returns `Except.ok none`
when no element has the id, `query_selector` returns `Except.ok none` when
nothing matches (and the selector is valid), and `prompt` returns
`Except.ok none` when the user dismisses the dialog. -/
theorem C9_absent_is_none_not_failure {Elem : Type} (win : WindowModel Elem)
    (doc : DocumentModel Elem) (hdoc : win.document = some doc)
    (i sel msg : String)
    (hid : doc.get_element_by_id i = none)
    (hsel : doc.query_selector sel = Except.ok none)
    (hmsg : win.prompt_with_message msg = Except.ok none) :
    get_element_by_id (some win) i = Except.ok none ∧
    query_selector (some win) sel = Except.ok none ∧
    prompt (some win) msg = Except.ok none := by
  have hd := document_some win doc hdoc
  refine ⟨?_, ?_, ?_⟩
  · simp [get_element_by_id, hd, hid]
  · simp [query_selector, hd, hsel]
  · simp [prompt, optionUnwrap, hmsg]

/-- Witness for C9 on the concrete window `c9Win`. -/
theorem C9_absent_is_none_not_failure_witness :
    c9Win.document = some c9Doc ∧
    (get_element_by_id (some c9Win) "x" = Except.ok none ∧
     query_selector (some c9Win) "p" = Except.ok none ∧
     prompt (some c9Win) "q" = Except.ok none) :=
  ⟨rfl, C9_absent_is_none_not_failure c9Win c9Doc rfl "x" "p" "q" rfl rfl rfl⟩

/-- C10: `prompt` distinguishes an empty confirmed entry from a dismissal —
a confirmed entry (including the empty string) is forwarded as `some entry`
and is never reported as the absent outcome, and the absent outcome occurs
exactly when the host reported a dismissal. -/
theorem C10_prompt_empty_vs_dismiss {Elem : Type} (win : WindowModel Elem)
    (msg : String) :
    (∀ entry, win.prompt_with_message msg = Except.ok (some entry) →
      prompt (some win) msg = Except.ok (some entry) ∧
      prompt (some win) msg ≠ Except.ok none) ∧
    (prompt (some win) msg = Except.ok none ↔
      win.prompt_with_message msg = Except.ok none) := by
  have hp : prompt (some win) msg = win.prompt_with_message msg := rfl
  constructor
  · intro entry he
    rw [hp, he]
    exact ⟨rfl, by simp⟩
  · rw [hp]

/-- Witness for C10 on the concrete window `c10Win`, whose prompt is confirmed
with the empty entry. -/
theorem C10_prompt_empty_vs_dismiss_witness :
    c10Win.prompt_with_message "q" = Except.ok (some "") ∧
    (prompt (some c10Win) "q" = Except.ok (some "") ∧
     prompt (some c10Win) "q" ≠ Except.ok none) :=
  ⟨rfl, (C10_prompt_empty_vs_dismiss c10Win "q").1 "" rfl⟩

end Webru
